import Mathlib

/-
Verification of the vlaunch application-bundle launcher (src/src/main.c)
against its natural-language specification.

The launcher is modelled as pure functions over an abstract operating-system
state (a World): the stat results, execute-permission answers, environment
variables, and the success or failure of setenv and execv are inputs of the
model. Each translated function returns its C return value together with the
log messages it emits and the trace of system calls it performs, so that
claims about which checks run, which diagnostics appear, and which state is
read or written can be stated and proved.
-/

namespace Vlaunch

/-- Result of stat on a path: the file-type bits of st_mode that the code
inspects (S_ISREG, S_ISLNK, S_ISDIR), or other for any other file type. -/
inductive FileKind where
  | reg
  | lnk
  | dir
  | other
deriving DecidableEq

/-- Log levels of log_message. -/
inductive LogLevel where
  | info
  | warning
  | error
  | debug
deriving DecidableEq

/-- One log line: level plus the formatted message body. The timestamp and
icon prefix added by log_message are presentation only and are not modelled. -/
structure LogEntry where
  level : LogLevel
  msg : String
deriving DecidableEq

/-- A system call performed by the launcher, recorded for trace reasoning. -/
inductive SysEvent where
  | stat (path : String)
  | access (path : String)
  | getenv (name : String)
  | setenv (name value : String)
  | getcwd
  | execv (path : String)
deriving DecidableEq

/-- The operating-system state the launcher observes and acts on. stat gives
the file kind of an existing path (none when stat fails); accessX says whether
access with X_OK succeeds; env is the environment; setenvOk says whether a
setenv call succeeds; execOk says whether execv on a path succeeds. -/
structure World where
  stat : String → Option FileKind
  accessX : String → Bool
  env : String → Option String
  setenvOk : Bool
  execOk : String → Bool

/- Constants from the configuration section of main.c. PATH_MAX is 4096 on
the Linux targets this tool is written for. -/

def MAX_PATH_LENGTH : Nat := 4096

def MAX_ENV_LENGTH : Nat := 4096

def EXEC_PATH : String := "/exec/base"

def LIB_PATH : String := "/library"

def RES_PATH : String := "/resources"

def METADATA_PATH : String := "/info.yaml"

def ICON_PATH : String := "/icon.png"

def EXIT_SUCCESS : Nat := 0

def EXIT_INVALID_ARGS : Nat := 1

def EXIT_BUNDLE_ERROR : Nat := 2

def EXIT_EXEC_ERROR : Nat := 3

def EXIT_SYSTEM_ERROR : Nat := 4

/-- First n characters of a string. -/
def strTake (n : Nat) (s : String) : String := String.mk (s.data.take n)

/-- snprintf with the format string percent-s percent-s into a buffer of the
given size: the concatenation, truncated to size minus one characters (one
byte is reserved for the terminating NUL). -/
def snprintf_cat (size : Nat) (a b : String) : String := strTake (size - 1) (a ++ b)

/-- file_exists from main.c: false on an empty path without calling stat,
otherwise stat the path and require a regular file or a symbolic link.
Returns the result together with the system calls made. -/
def file_exists (w : World) (path : String) : Bool × List SysEvent :=
  if path.length = 0 then (false, [])
  else
    match w.stat path with
    | none => (false, [SysEvent.stat path])
    | some k => (k == FileKind.reg || k == FileKind.lnk, [SysEvent.stat path])

/-- directory_exists from main.c: false on an empty path without calling
stat, otherwise stat the path and require a directory. -/
def directory_exists (w : World) (path : String) : Bool × List SysEvent :=
  if path.length = 0 then (false, [])
  else
    match w.stat path with
    | none => (false, [SysEvent.stat path])
    | some k => (k == FileKind.dir, [SysEvent.stat path])

/-- Return value, log output and system-call trace of validate_bundle. -/
structure VOut where
  code : Nat
  logs : List LogEntry
  trace : List SysEvent

/-- validate_bundle from main.c: require the bundle directory to exist, then
the executable at bundle_path ++ EXEC_PATH (built by snprintf into a
MAX_PATH_LENGTH buffer) to exist as a regular file or symlink, then execute
permission on it; each failure logs its own error and returns
EXIT_BUNDLE_ERROR. -/
def validate_bundle (w : World) (bundle_path : String) : VOut :=
  let d := directory_exists w bundle_path
  if !d.fst then
    ⟨EXIT_BUNDLE_ERROR,
     [⟨LogLevel.error, "Bundle directory not found: " ++ bundle_path⟩], d.snd⟩
  else
    let full_path := snprintf_cat MAX_PATH_LENGTH bundle_path EXEC_PATH
    let f := file_exists w full_path
    if !f.fst then
      ⟨EXIT_BUNDLE_ERROR,
       [⟨LogLevel.error, "Required executable not found: " ++ full_path⟩],
       d.snd ++ f.snd⟩
    else if !(w.accessX full_path) then
      ⟨EXIT_BUNDLE_ERROR,
       [⟨LogLevel.error, "Executable lacks execute permissions: " ++ full_path⟩],
       d.snd ++ f.snd ++ [SysEvent.access full_path]⟩
    else
      ⟨EXIT_SUCCESS,
       [⟨LogLevel.info, "Bundle validation successful: " ++ bundle_path⟩],
       d.snd ++ f.snd ++ [SysEvent.access full_path]⟩

/-- Return value, resulting environment, log output and system-call trace of
configure_library_path. -/
structure COut where
  code : Nat
  env : String → Option String
  logs : List LogEntry
  trace : List SysEvent

/-- Point update of an environment, the effect of a successful setenv with
overwrite. -/
def setenvUpd (env : String → Option String) (name value : String) :
    String → Option String :=
  fun n => if n = name then some value else env n

/-- The tail of configure_library_path after new_ld_path has been built: call
setenv LD_LIBRARY_PATH with overwrite; on failure log an error and return
EXIT_SYSTEM_ERROR, on success log and return EXIT_SUCCESS. -/
def finish_setenv (w : World) (new_ld_path lib_full_path : String)
    (tr : List SysEvent) : COut :=
  if w.setenvOk then
    ⟨EXIT_SUCCESS, setenvUpd w.env "LD_LIBRARY_PATH" new_ld_path,
     [⟨LogLevel.info, "Library path configured: " ++ lib_full_path⟩,
      ⟨LogLevel.debug, "Full LD_LIBRARY_PATH: " ++ new_ld_path⟩],
     tr ++ [SysEvent.setenv "LD_LIBRARY_PATH" new_ld_path]⟩
  else
    ⟨EXIT_SYSTEM_ERROR, w.env,
     [⟨LogLevel.error, "Failed to set LD_LIBRARY_PATH"⟩],
     tr ++ [SysEvent.setenv "LD_LIBRARY_PATH" new_ld_path]⟩

/-- configure_library_path from main.c: if bundle_path ++ LIB_PATH is not a
directory, warn and succeed without touching the environment. Otherwise read
LD_LIBRARY_PATH; if it is set and non-empty, fail with EXIT_SYSTEM_ERROR when
the prepended value would not fit in the MAX_ENV_LENGTH buffer, else build
lib:current; if unset or empty, the new value is the library path alone; then
setenv the new value. -/
def configure_library_path (w : World) (bundle_path : String) : COut :=
  let lib_full_path := snprintf_cat MAX_PATH_LENGTH bundle_path LIB_PATH
  let d := directory_exists w lib_full_path
  if !d.fst then
    ⟨EXIT_SUCCESS, w.env,
     [⟨LogLevel.warning, "Library directory not found: " ++ lib_full_path⟩],
     d.snd⟩
  else
    let tr := d.snd ++ [SysEvent.getenv "LD_LIBRARY_PATH"]
    match w.env "LD_LIBRARY_PATH" with
    | some cur =>
      if 0 < cur.length then
        if MAX_ENV_LENGTH < lib_full_path.length + cur.length + 2 then
          ⟨EXIT_SYSTEM_ERROR, w.env,
           [⟨LogLevel.error, "LD_LIBRARY_PATH would exceed maximum length"⟩],
           tr⟩
        else
          finish_setenv w
            (strTake (MAX_ENV_LENGTH - 1) (lib_full_path ++ ":" ++ cur))
            lib_full_path tr
      else
        finish_setenv w (strTake (MAX_ENV_LENGTH - 1) lib_full_path)
          lib_full_path tr
    | none =>
      finish_setenv w (strTake (MAX_ENV_LENGTH - 1) lib_full_path)
        lib_full_path tr

/-- Log output and system-call trace of inspect_optional_components. -/
structure InspOut where
  logs : List LogEntry
  trace : List SysEvent

/-- inspect_optional_components from main.c: purely observational checks of
the metadata file, icon file and resources directory. -/
def inspect_optional_components (w : World) (bundle_path : String) : InspOut :=
  let m := file_exists w (snprintf_cat MAX_PATH_LENGTH bundle_path METADATA_PATH)
  let lm : List LogEntry :=
    if m.fst then [⟨LogLevel.info, "Metadata file found"⟩]
    else [⟨LogLevel.debug, "Metadata file not present"⟩]
  let i := file_exists w (snprintf_cat MAX_PATH_LENGTH bundle_path ICON_PATH)
  let li : List LogEntry :=
    if i.fst then [⟨LogLevel.info, "Icon file found"⟩]
    else [⟨LogLevel.debug, "Icon file not present"⟩]
  let r := directory_exists w (snprintf_cat MAX_PATH_LENGTH bundle_path RES_PATH)
  let lr : List LogEntry :=
    if r.fst then [⟨LogLevel.info, "Resources directory found"⟩]
    else [⟨LogLevel.debug, "Resources directory not present"⟩]
  ⟨lm ++ li ++ lr, m.snd ++ i.snd ++ r.snd⟩

/-- How a run of the launcher ends: either the launcher itself returns an
exit code, or execv succeeds and the process image is replaced by the target
program with the given argument vector. -/
inductive Outcome where
  | exited (code : Nat)
  | replaced (path : String) (args : List String)
deriving DecidableEq

/-- Observable result of a launcher run: the outcome, the final environment
(inherited by the target program when the outcome is replaced), the log
output, the system-call trace, and whether usage text was printed. -/
structure RunResult where
  outcome : Outcome
  env : String → Option String
  logs : List LogEntry
  trace : List SysEvent
  usage : Bool

/-- launch_application from main.c: validate the bundle, configure the
library path, inspect optional components, then execv the executable with an
argument vector holding only its own path. execv inherits the ambient
(possibly mutated) environment; if execv returns, log the failure and return
EXIT_EXEC_ERROR. -/
def launch_application (w : World) (bundle_path : String) : RunResult :=
  let v := validate_bundle w bundle_path
  if v.code ≠ EXIT_SUCCESS then
    ⟨Outcome.exited v.code, w.env, v.logs, v.trace, false⟩
  else
    let c := configure_library_path w bundle_path
    if c.code ≠ EXIT_SUCCESS then
      ⟨Outcome.exited c.code, c.env, v.logs ++ c.logs, v.trace ++ c.trace, false⟩
    else
      let i := inspect_optional_components w bundle_path
      let exec_path := snprintf_cat MAX_PATH_LENGTH bundle_path EXEC_PATH
      let logs2 := v.logs ++ c.logs ++ i.logs ++
        [⟨LogLevel.info, "Launching application: " ++ exec_path⟩,
         ⟨LogLevel.debug, "Working directory"⟩]
      let tr2 := v.trace ++ c.trace ++ i.trace ++
        [SysEvent.getcwd, SysEvent.execv exec_path]
      if w.execOk exec_path then
        ⟨Outcome.replaced exec_path [exec_path], c.env, logs2, tr2, false⟩
      else
        ⟨Outcome.exited EXIT_EXEC_ERROR, c.env,
         logs2 ++ [⟨LogLevel.error, "Failed to execute application"⟩],
         tr2, false⟩

/-- main from main.c, on an abstract World and the argv list (argv has the
program name first, so argc is the list length). argc different from two
prints a diagnostic and usage and exits with EXIT_INVALID_ARGS; a bundle path
of length at least MAX_PATH_LENGTH exits with EXIT_INVALID_ARGS without
printing usage; otherwise the run is launch_application, with the startup
log lines before it and, when it returns, the unexpected-termination line
after it. -/
def mainRun (w : World) (argv : List String) : RunResult :=
  match argv with
  | [_, bundle_path] =>
    if MAX_PATH_LENGTH ≤ bundle_path.length then
      ⟨Outcome.exited EXIT_INVALID_ARGS, w.env,
       [⟨LogLevel.error, "Bundle path too long"⟩], [], false⟩
    else
      let r := launch_application w bundle_path
      let trailing : List LogEntry :=
        match r.outcome with
        | Outcome.replaced _ _ => []
        | Outcome.exited _ =>
          [⟨LogLevel.error, "Application launcher terminated unexpectedly"⟩]
      ⟨r.outcome, r.env,
       [⟨LogLevel.info, "Starting Application Launcher"⟩,
        ⟨LogLevel.info, "Target bundle: " ++ bundle_path⟩] ++ r.logs ++ trailing,
       r.trace, r.usage⟩
  | other =>
    let msg :=
      if 2 < other.length then "Too many arguments provided"
      else "Missing required bundle path argument"
    ⟨Outcome.exited EXIT_INVALID_ARGS, w.env,
     [⟨LogLevel.error, msg⟩], [], true⟩

/- Concrete worlds used by the witness theorems. -/

/-- A small filesystem: a complete bundle at /tmp/app (with a library
directory) and a bundle at /tmp/plain without one. -/
def sampleFS : String → Option FileKind := fun s =>
  if s = "/tmp/app" then some FileKind.dir
  else if s = "/tmp/app/exec/base" then some FileKind.reg
  else if s = "/tmp/app/library" then some FileKind.dir
  else if s = "/tmp/plain" then some FileKind.dir
  else if s = "/tmp/plain/exec/base" then some FileKind.reg
  else none

def accessSample : String → Bool := fun s =>
  s == "/tmp/app/exec/base" || s == "/tmp/plain/exec/base"

def envUsr : String → Option String := fun n =>
  if n = "LD_LIBRARY_PATH" then some "/usr/lib" else none

def envEmptyStr : String → Option String := fun n =>
  if n = "LD_LIBRARY_PATH" then some "" else none

def wGood : World := ⟨sampleFS, accessSample, envUsr, true, fun _ => true⟩

def wExecFail : World := ⟨sampleFS, accessSample, envUsr, true, fun _ => false⟩

def wSetenvFail : World := ⟨sampleFS, accessSample, envUsr, false, fun _ => true⟩

def wEmptyEnv : World := ⟨sampleFS, accessSample, envEmptyStr, true, fun _ => true⟩

/- Basic lemmas. -/

theorem strTake_of_le (n : Nat) (s : String) (h : s.length ≤ n) :
    strTake n s = s := by
  cases s with
  | mk data =>
    simp only [strTake, String.length] at *
    rw [List.take_of_length_le h]

theorem snprintf_cat_of_le (size : Nat) (a b : String)
    (h : (a ++ b).length ≤ size - 1) :
    snprintf_cat size a b = a ++ b := by
  simp only [snprintf_cat]
  exact strTake_of_le _ _ h

/-- Two string concatenations differ when the left parts are non-empty and
start with different characters. -/
theorem append_ne_of_head_ne (a b x y : String)
    (h : a.data.head? ≠ b.data.head?) (ha : a.data ≠ []) (hb : b.data ≠ []) :
    a ++ x ≠ b ++ y := by
  cases a with | mk la =>
  cases b with | mk lb =>
  cases x with | mk lx =>
  cases y with | mk ly =>
  cases la with
  | nil => exact absurd rfl ha
  | cons c cs =>
    cases lb with
    | nil => exact absurd rfl hb
    | cons d ds =>
      intro he
      apply h
      have hd : c :: (cs ++ lx) = d :: (ds ++ ly) := congrArg String.data he
      injection hd with h1 _
      simp [h1]

/-- validate_bundle returns EXIT_SUCCESS exactly when the bundle directory
exists, the executable exists as a regular file or symlink, and it has
execute permission. -/
theorem validate_bundle_success_iff (w : World) (p : String) :
    (validate_bundle w p).code = EXIT_SUCCESS ↔
      ((directory_exists w p).fst = true ∧
       (file_exists w (snprintf_cat MAX_PATH_LENGTH p EXEC_PATH)).fst = true ∧
       w.accessX (snprintf_cat MAX_PATH_LENGTH p EXEC_PATH) = true) := by
  cases hd : (directory_exists w p).fst <;>
    cases hf : (file_exists w (snprintf_cat MAX_PATH_LENGTH p EXEC_PATH)).fst <;>
      cases hx : w.accessX (snprintf_cat MAX_PATH_LENGTH p EXEC_PATH) <;>
        simp [validate_bundle, hd, hf, hx, EXIT_SUCCESS, EXIT_BUNDLE_ERROR]

/-- validate_bundle returns either EXIT_SUCCESS or EXIT_BUNDLE_ERROR. -/
theorem validate_bundle_code_cases (w : World) (p : String) :
    (validate_bundle w p).code = EXIT_SUCCESS ∨
      (validate_bundle w p).code = EXIT_BUNDLE_ERROR := by
  cases hd : (directory_exists w p).fst <;>
    cases hf : (file_exists w (snprintf_cat MAX_PATH_LENGTH p EXEC_PATH)).fst <;>
      cases hx : w.accessX (snprintf_cat MAX_PATH_LENGTH p EXEC_PATH) <;>
        simp [validate_bundle, hd, hf, hx]

/-- The property asserted by claim C1, at a given World and bundle path, with
full the path of the required executable. -/
def ValidateSpec (w : World) (p full : String) : Prop :=
  ((validate_bundle w p).code = EXIT_SUCCESS ↔
    ((directory_exists w p).fst = true ∧
     (file_exists w full).fst = true ∧
     w.accessX full = true)) ∧
  ((validate_bundle w p).code ≠ EXIT_SUCCESS →
    (validate_bundle w p).code = EXIT_BUNDLE_ERROR) ∧
  ((directory_exists w p).fst = false →
    (validate_bundle w p).logs =
      [⟨LogLevel.error, "Bundle directory not found: " ++ p⟩]) ∧
  ((directory_exists w p).fst = true → (file_exists w full).fst = false →
    (validate_bundle w p).logs =
      [⟨LogLevel.error, "Required executable not found: " ++ full⟩]) ∧
  ((directory_exists w p).fst = true → (file_exists w full).fst = true →
    w.accessX full = false →
    (validate_bundle w p).logs =
      [⟨LogLevel.error, "Executable lacks execute permissions: " ++ full⟩]) ∧
  ("Bundle directory not found: " ++ p ≠
     "Required executable not found: " ++ full) ∧
  ("Bundle directory not found: " ++ p ≠
     "Executable lacks execute permissions: " ++ full) ∧
  ("Required executable not found: " ++ full ≠
     "Executable lacks execute permissions: " ++ full)

/-- C1: validate_bundle succeeds iff the bundle path is an existing
directory, the file at path ++ EXEC_PATH exists as a regular file or
symbolic link, and that file has execute permission; every failing condition
yields EXIT_BUNDLE_ERROR with its own distinct diagnostic, the missing-file
diagnostic being different from the not-executable one. Stated for bundle
paths short enough that the snprintf buffer does not truncate. -/
theorem C1_validate_bundle_contract (w : World) (p : String)
    (hlen : (p ++ EXEC_PATH).length ≤ MAX_PATH_LENGTH - 1) :
    ValidateSpec w p (p ++ EXEC_PATH) := by
  have hfull : snprintf_cat MAX_PATH_LENGTH p EXEC_PATH = p ++ EXEC_PATH :=
    snprintf_cat_of_le _ _ _ hlen
  unfold ValidateSpec
  refine ⟨?_, ?_, ?_, ?_, ?_, ?_, ?_, ?_⟩
  · rw [validate_bundle_success_iff, hfull]
  · intro h
    rcases validate_bundle_code_cases w p with hc | hc
    · exact absurd hc h
    · exact hc
  · intro hd
    simp [validate_bundle, hd]
  · intro hd hf
    simp [validate_bundle, hfull, hd, hf]
  · intro hd hf hx
    simp [validate_bundle, hfull, hd, hf, hx]
  · exact append_ne_of_head_ne _ _ _ _ (by decide) (by decide) (by decide)
  · exact append_ne_of_head_ne _ _ _ _ (by decide) (by decide) (by decide)
  · exact append_ne_of_head_ne _ _ _ _ (by decide) (by decide) (by decide)

/-- Witness for C1 at the concrete world wGood and bundle path /tmp/app. -/
theorem C1_validate_bundle_contract_witness :
    ("/tmp/app" ++ EXEC_PATH).length ≤ MAX_PATH_LENGTH - 1 ∧
      ValidateSpec wGood "/tmp/app" ("/tmp/app" ++ EXEC_PATH) :=
  ⟨by decide, C1_validate_bundle_contract wGood "/tmp/app" (by decide)⟩

/-- C2: when the bundle has a library subdirectory and LD_LIBRARY_PATH holds
a non-empty prior value, a successful run of configure_library_path leaves
LD_LIBRARY_PATH equal to the library directory path, a colon, and the prior
value verbatim. Stated for bundle paths short enough that the snprintf
buffer does not truncate. -/
theorem C2_library_path_prepended (w : World) (p old : String)
    (hp : (p ++ LIB_PATH).length ≤ MAX_PATH_LENGTH - 1)
    (hdir : (directory_exists w (p ++ LIB_PATH)).fst = true)
    (hold : w.env "LD_LIBRARY_PATH" = some old)
    (hne : 0 < old.length)
    (hsucc : (configure_library_path w p).code = EXIT_SUCCESS) :
    (configure_library_path w p).env "LD_LIBRARY_PATH" =
      some ((p ++ LIB_PATH) ++ ":" ++ old) := by
  have hlib : snprintf_cat MAX_PATH_LENGTH p LIB_PATH = p ++ LIB_PATH :=
    snprintf_cat_of_le _ _ _ hp
  by_cases hover : MAX_ENV_LENGTH < p.length + LIB_PATH.length + old.length + 2
  · exfalso
    simp [configure_library_path, hlib, hdir, hold, hne, hover,
      EXIT_SYSTEM_ERROR, EXIT_SUCCESS] at hsucc
  · by_cases hok : w.setenvOk
    · have hlen2 : ((p ++ LIB_PATH) ++ ":" ++ old).length ≤ MAX_ENV_LENGTH - 1 := by
        simp only [String.length_append]
        have hc : (":" : String).length = 1 := rfl
        have hmax : MAX_ENV_LENGTH = 4096 := rfl
        omega
      simp [configure_library_path, hlib, hdir, hold, hne, hover, finish_setenv,
        hok, setenvUpd, strTake_of_le _ _ hlen2]
    · exfalso
      simp [configure_library_path, hlib, hdir, hold, hne, hover, finish_setenv,
        hok, EXIT_SYSTEM_ERROR, EXIT_SUCCESS] at hsucc

/-- Witness for C2 at wGood, bundle /tmp/app, prior value /usr/lib. -/
theorem C2_library_path_prepended_witness :
    ("/tmp/app" ++ LIB_PATH).length ≤ MAX_PATH_LENGTH - 1 ∧
      (configure_library_path wGood "/tmp/app").env "LD_LIBRARY_PATH" =
        some (("/tmp/app" ++ LIB_PATH) ++ ":" ++ "/usr/lib") :=
  ⟨by decide,
   C2_library_path_prepended wGood "/tmp/app" "/usr/lib" (by decide) (by decide)
     (by decide) (by decide) (by decide)⟩

/-- C5: when the bundle has no library subdirectory, configure_library_path
returns EXIT_SUCCESS and the environment is unchanged. Stated for bundle
paths short enough that the snprintf buffer does not truncate. -/
theorem C5_no_library_dir_noop (w : World) (p : String)
    (hp : (p ++ LIB_PATH).length ≤ MAX_PATH_LENGTH - 1)
    (hdir : (directory_exists w (p ++ LIB_PATH)).fst = false) :
    (configure_library_path w p).code = EXIT_SUCCESS ∧
      (configure_library_path w p).env = w.env := by
  have hlib : snprintf_cat MAX_PATH_LENGTH p LIB_PATH = p ++ LIB_PATH :=
    snprintf_cat_of_le _ _ _ hp
  constructor <;> simp [configure_library_path, hlib, hdir]

/-- Witness for C5 at wGood and the bundle /tmp/plain, which has no library
subdirectory. -/
theorem C5_no_library_dir_noop_witness :
    (directory_exists wGood ("/tmp/plain" ++ LIB_PATH)).fst = false ∧
      ((configure_library_path wGood "/tmp/plain").code = EXIT_SUCCESS ∧
        (configure_library_path wGood "/tmp/plain").env = wGood.env) :=
  ⟨by decide, C5_no_library_dir_noop wGood "/tmp/plain" (by decide) (by decide)⟩

/-- C10: when LD_LIBRARY_PATH is set to the empty string, a run of
configure_library_path over a bundle with a library subdirectory sets the
variable to the library directory path alone, with no separator appended.
Stated for bundle paths short enough that the snprintf buffer does not
truncate. -/
theorem C10_empty_value_treated_as_absent (w : World) (p : String)
    (hp : (p ++ LIB_PATH).length ≤ MAX_PATH_LENGTH - 1)
    (hdir : (directory_exists w (p ++ LIB_PATH)).fst = true)
    (hold : w.env "LD_LIBRARY_PATH" = some "")
    (hok : w.setenvOk = true) :
    (configure_library_path w p).code = EXIT_SUCCESS ∧
      (configure_library_path w p).env "LD_LIBRARY_PATH" =
        some (p ++ LIB_PATH) := by
  have hlib : snprintf_cat MAX_PATH_LENGTH p LIB_PATH = p ++ LIB_PATH :=
    snprintf_cat_of_le _ _ _ hp
  have hlen2 : (p ++ LIB_PATH).length ≤ MAX_ENV_LENGTH - 1 := by
    have hmax : MAX_ENV_LENGTH = 4096 := rfl
    have hmax2 : MAX_PATH_LENGTH = 4096 := rfl
    omega
  constructor <;>
    simp [configure_library_path, hlib, hdir, hold, finish_setenv, hok,
      setenvUpd, strTake_of_le _ _ hlen2]

/-- Witness for C10 at wEmptyEnv, where LD_LIBRARY_PATH is the empty
string. -/
theorem C10_empty_value_treated_as_absent_witness :
    (directory_exists wEmptyEnv ("/tmp/app" ++ LIB_PATH)).fst = true ∧
      ((configure_library_path wEmptyEnv "/tmp/app").code = EXIT_SUCCESS ∧
        (configure_library_path wEmptyEnv "/tmp/app").env "LD_LIBRARY_PATH" =
          some ("/tmp/app" ++ LIB_PATH)) :=
  ⟨by decide,
   C10_empty_value_treated_as_absent wEmptyEnv "/tmp/app" (by decide)
     (by decide) (by decide) (by decide)⟩

/-- Every system call made by file_exists is the stat of its argument. -/
theorem mem_file_exists_trace (w : World) (s : String) (e : SysEvent)
    (h : e ∈ (file_exists w s).snd) : e = SysEvent.stat s := by
  by_cases hl : s.length = 0 <;> cases hs : w.stat s <;>
    simp [file_exists, hl, hs] at h <;> exact h

/-- Every system call made by directory_exists is the stat of its argument. -/
theorem mem_directory_exists_trace (w : World) (s : String) (e : SysEvent)
    (h : e ∈ (directory_exists w s).snd) : e = SysEvent.stat s := by
  by_cases hl : s.length = 0 <;> cases hs : w.stat s <;>
    simp [directory_exists, hl, hs] at h <;> exact h

/-- Every system call made by validate_bundle is a stat or an access call. -/
theorem mem_validate_bundle_trace (w : World) (p : String) (e : SysEvent)
    (h : e ∈ (validate_bundle w p).trace) :
    (∃ s, e = SysEvent.stat s) ∨ (∃ s, e = SysEvent.access s) := by
  cases hd : (directory_exists w p).fst
  · simp [validate_bundle, hd] at h
    exact Or.inl ⟨_, mem_directory_exists_trace w p e h⟩
  · cases hf : (file_exists w (snprintf_cat MAX_PATH_LENGTH p EXEC_PATH)).fst
    · simp [validate_bundle, hd, hf] at h
      rcases h with h | h
      · exact Or.inl ⟨_, mem_directory_exists_trace w p e h⟩
      · exact Or.inl ⟨_, mem_file_exists_trace w _ e h⟩
    · cases hx : w.accessX (snprintf_cat MAX_PATH_LENGTH p EXEC_PATH)
      · simp [validate_bundle, hd, hf, hx] at h
        rcases h with h | h | h
        · exact Or.inl ⟨_, mem_directory_exists_trace w p e h⟩
        · exact Or.inl ⟨_, mem_file_exists_trace w _ e h⟩
        · exact Or.inr ⟨_, h⟩
      · simp [validate_bundle, hd, hf, hx] at h
        rcases h with h | h | h
        · exact Or.inl ⟨_, mem_directory_exists_trace w p e h⟩
        · exact Or.inl ⟨_, mem_file_exists_trace w _ e h⟩
        · exact Or.inr ⟨_, h⟩

/-- Every system call made by configure_library_path is a stat, the getenv
of LD_LIBRARY_PATH, or a setenv of LD_LIBRARY_PATH. -/
theorem mem_configure_library_path_trace (w : World) (p : String) (e : SysEvent)
    (h : e ∈ (configure_library_path w p).trace) :
    (∃ s, e = SysEvent.stat s) ∨ e = SysEvent.getenv "LD_LIBRARY_PATH" ∨
      (∃ v, e = SysEvent.setenv "LD_LIBRARY_PATH" v) := by
  have hfin : ∀ nl lf tr, e ∈ (finish_setenv w nl lf tr).trace →
      e ∈ tr ∨ ∃ v, e = SysEvent.setenv "LD_LIBRARY_PATH" v := by
    intro nl lf tr hmem
    cases hok : w.setenvOk <;> simp [finish_setenv, hok] at hmem <;>
      rcases hmem with hmem | hmem
    · exact Or.inl hmem
    · exact Or.inr ⟨_, hmem⟩
    · exact Or.inl hmem
    · exact Or.inr ⟨_, hmem⟩
  have hbase : ∀ e₂ ∈ (directory_exists w
      (snprintf_cat MAX_PATH_LENGTH p LIB_PATH)).snd ++
        [SysEvent.getenv "LD_LIBRARY_PATH"],
      (∃ s, e₂ = SysEvent.stat s) ∨ e₂ = SysEvent.getenv "LD_LIBRARY_PATH" := by
    intro e₂ h₂
    rcases List.mem_append.mp h₂ with h₂ | h₂
    · exact Or.inl ⟨_, mem_directory_exists_trace w _ e₂ h₂⟩
    · exact Or.inr (List.mem_singleton.mp h₂)
  cases hd : (directory_exists w (snprintf_cat MAX_PATH_LENGTH p LIB_PATH)).fst
  · simp [configure_library_path, hd] at h
    exact Or.inl ⟨_, mem_directory_exists_trace w _ e h⟩
  · cases hcur : w.env "LD_LIBRARY_PATH"
    · simp only [configure_library_path, hd, hcur, Bool.not_true, if_neg
        (by simp : ¬(false = true))] at h
      rcases hfin _ _ _ h with h | h
      · rcases hbase e h with h | h
        · exact Or.inl h
        · exact Or.inr (Or.inl h)
      · exact Or.inr (Or.inr h)
    · rename_i cur
      by_cases hne : 0 < cur.length
      · by_cases hover : MAX_ENV_LENGTH <
            (snprintf_cat MAX_PATH_LENGTH p LIB_PATH).length + cur.length + 2
        · simp [configure_library_path, hd, hcur, hne, hover] at h
          rcases h with h | h
          · exact Or.inl ⟨_, mem_directory_exists_trace w _ e h⟩
          · exact Or.inr (Or.inl h)
        · simp only [configure_library_path, hd, hcur] at h
          rw [if_neg (by simp), if_pos hne, if_neg hover] at h
          rcases hfin _ _ _ h with h | h
          · rcases hbase e h with h | h
            · exact Or.inl h
            · exact Or.inr (Or.inl h)
          · exact Or.inr (Or.inr h)
      · simp only [configure_library_path, hd, hcur] at h
        rw [if_neg (by simp), if_neg hne] at h
        rcases hfin _ _ _ h with h | h
        · rcases hbase e h with h | h
          · exact Or.inl h
          · exact Or.inr (Or.inl h)
        · exact Or.inr (Or.inr h)

/-- validate_bundle never performs an execv call. -/
theorem execv_not_in_validate_trace (w : World) (p q : String) :
    SysEvent.execv q ∉ (validate_bundle w p).trace := by
  intro h
  rcases mem_validate_bundle_trace w p _ h with ⟨s, hs⟩ | ⟨s, hs⟩ <;> cases hs

/-- configure_library_path never performs an execv call. -/
theorem execv_not_in_configure_trace (w : World) (p q : String) :
    SysEvent.execv q ∉ (configure_library_path w p).trace := by
  intro h
  rcases mem_configure_library_path_trace w p _ h with ⟨s, hs⟩ | hs | ⟨v, hs⟩ <;>
    cases hs

/-- The property asserted by claim C3: a successful handoff passes exactly
the executable path as the whole argument vector and hands over the ambient
environment as configured, and a failing execv yields EXIT_EXEC_ERROR with
the failure logged. -/
def HandoffSpec (w : World) (p : String) : Prop :=
  (∀ q args, (launch_application w p).outcome = Outcome.replaced q args →
    args = [q] ∧ q = snprintf_cat MAX_PATH_LENGTH p EXEC_PATH ∧
      (launch_application w p).env = (configure_library_path w p).env) ∧
  ((validate_bundle w p).code = EXIT_SUCCESS →
    (configure_library_path w p).code = EXIT_SUCCESS →
    w.execOk (snprintf_cat MAX_PATH_LENGTH p EXEC_PATH) = false →
    (launch_application w p).outcome = Outcome.exited EXIT_EXEC_ERROR ∧
      ⟨LogLevel.error, "Failed to execute application"⟩ ∈
        (launch_application w p).logs)

/-- C3: the process handoff passes exactly one argument-vector element, the
executable path itself, the launched process inherits the environment left
by configure_library_path, and a failing execv is logged and yields
EXIT_EXEC_ERROR. -/
theorem C3_handoff_contract (w : World) (p : String) : HandoffSpec w p := by
  unfold HandoffSpec
  constructor
  · intro q args h
    by_cases hv : (validate_bundle w p).code = EXIT_SUCCESS
    · by_cases hc : (configure_library_path w p).code = EXIT_SUCCESS
      · cases hex : w.execOk (snprintf_cat MAX_PATH_LENGTH p EXEC_PATH)
        · simp [launch_application, hv, hc, hex] at h
        · simp [launch_application, hv, hc, hex] at h
          obtain ⟨h1, h2⟩ := h
          refine ⟨?_, h1.symm, ?_⟩
          · rw [← h2, ← h1]
          · simp [launch_application, hv, hc, hex]
      · simp [launch_application, hv, hc] at h
    · simp [launch_application, hv] at h
  · intro hv hc hex
    constructor
    · simp [launch_application, hv, hc, hex]
    · simp [launch_application, hv, hc, hex]

/-- Witness for C3 at wExecFail, where execv fails on every path. -/
theorem C3_handoff_contract_witness :
    (validate_bundle wExecFail "/tmp/app").code = EXIT_SUCCESS ∧
      HandoffSpec wExecFail "/tmp/app" :=
  ⟨by decide, C3_handoff_contract wExecFail "/tmp/app"⟩

/-- C4: when the bundle path is not an existing directory, the launcher
rejects with EXIT_BUNDLE_ERROR, leaves the environment untouched, and the
run performs no getenv or setenv call at all. -/
theorem C4_no_dir_rejects_before_env (w : World) (p : String)
    (h : (directory_exists w p).fst = false) :
    (launch_application w p).outcome = Outcome.exited EXIT_BUNDLE_ERROR ∧
      (launch_application w p).env = w.env ∧
      (∀ n, SysEvent.getenv n ∉ (launch_application w p).trace) ∧
      (∀ n v, SysEvent.setenv n v ∉ (launch_application w p).trace) := by
  have hv : (validate_bundle w p).code = EXIT_BUNDLE_ERROR := by
    simp [validate_bundle, h]
  have hv0 : (validate_bundle w p).code ≠ EXIT_SUCCESS := by
    rw [hv]; decide
  have hrun : launch_application w p =
      ⟨Outcome.exited (validate_bundle w p).code, w.env,
       (validate_bundle w p).logs, (validate_bundle w p).trace, false⟩ := by
    simp [launch_application, hv0]
  refine ⟨by rw [hrun, hv], by rw [hrun], ?_, ?_⟩
  · intro n hmem
    rw [hrun] at hmem
    rcases mem_validate_bundle_trace w p _ hmem with ⟨s, hs⟩ | ⟨s, hs⟩ <;> cases hs
  · intro n v hmem
    rw [hrun] at hmem
    rcases mem_validate_bundle_trace w p _ hmem with ⟨s, hs⟩ | ⟨s, hs⟩ <;> cases hs

/-- Witness for C4 at wGood and a path that is not a directory. -/
theorem C4_no_dir_rejects_before_env_witness :
    (directory_exists wGood "/tmp/missing").fst = false ∧
      ((launch_application wGood "/tmp/missing").outcome =
          Outcome.exited EXIT_BUNDLE_ERROR ∧
        (launch_application wGood "/tmp/missing").env = wGood.env ∧
        (∀ n, SysEvent.getenv n ∉ (launch_application wGood "/tmp/missing").trace) ∧
        (∀ n v,
          SysEvent.setenv n v ∉ (launch_application wGood "/tmp/missing").trace)) :=
  ⟨by decide, C4_no_dir_rejects_before_env wGood "/tmp/missing" (by decide)⟩

/-- The property asserted by claim C6: configure_library_path returns
EXIT_SYSTEM_ERROR exactly when the library directory exists and either the
prepended search-path string would not fit in the fixed-size buffer or the
setenv call fails; and such a failure makes the launcher exit with
EXIT_SYSTEM_ERROR without ever calling execv. -/
def SystemErrorSpec (w : World) (p : String) : Prop :=
  ((configure_library_path w p).code = EXIT_SYSTEM_ERROR ↔
    ((directory_exists w (p ++ LIB_PATH)).fst = true ∧
      ((∃ cur, w.env "LD_LIBRARY_PATH" = some cur ∧ 0 < cur.length ∧
          MAX_ENV_LENGTH ≤ ((p ++ LIB_PATH) ++ ":" ++ cur).length) ∨
        w.setenvOk = false))) ∧
  ((validate_bundle w p).code = EXIT_SUCCESS →
    (configure_library_path w p).code = EXIT_SYSTEM_ERROR →
    (launch_application w p).outcome = Outcome.exited EXIT_SYSTEM_ERROR ∧
      ∀ q, SysEvent.execv q ∉ (launch_application w p).trace)

/-- C6: the environment configurator fails with the system-error outcome
exactly when the combined search-path string would exceed the buffer or the
setenv call fails, and the launcher then aborts before process handoff.
Stated for bundle paths short enough that the snprintf buffer does not
truncate. -/
theorem C6_system_error_condition (w : World) (p : String)
    (hp : (p ++ LIB_PATH).length ≤ MAX_PATH_LENGTH - 1) :
    SystemErrorSpec w p := by
  have hlib : snprintf_cat MAX_PATH_LENGTH p LIB_PATH = p ++ LIB_PATH :=
    snprintf_cat_of_le _ _ _ hp
  unfold SystemErrorSpec
  constructor
  · cases hd : (directory_exists w (p ++ LIB_PATH)).fst
    · simp [configure_library_path, hlib, hd, EXIT_SYSTEM_ERROR, EXIT_SUCCESS]
    · cases hcur : w.env "LD_LIBRARY_PATH"
      · cases hok : w.setenvOk <;>
          simp [configure_library_path, hlib, hd, hcur, finish_setenv, hok,
            EXIT_SYSTEM_ERROR, EXIT_SUCCESS]
      · rename_i cur
        by_cases hne : 0 < cur.length
        · by_cases hover : MAX_ENV_LENGTH <
              p.length + LIB_PATH.length + cur.length + 2
          · simp [configure_library_path, hlib, hd, hcur, hne, hover,
              EXIT_SYSTEM_ERROR, EXIT_SUCCESS]
            exact Or.inl (by
              have hc1 : (":" : String).length = 1 := rfl
              omega)
          · cases hok : w.setenvOk
            · simp [configure_library_path, hlib, hd, hcur, hne, hover,
                finish_setenv, hok, EXIT_SYSTEM_ERROR, EXIT_SUCCESS]
            · simp [configure_library_path, hlib, hd, hcur, hne, hover,
                finish_setenv, hok, EXIT_SYSTEM_ERROR, EXIT_SUCCESS]
              have hc1 : (":" : String).length = 1 := rfl
              omega
        · cases hok : w.setenvOk <;>
            simp [configure_library_path, hlib, hd, hcur, hne, finish_setenv,
              hok, EXIT_SYSTEM_ERROR, EXIT_SUCCESS]
  · intro hv hc
    have hc0 : (configure_library_path w p).code ≠ EXIT_SUCCESS := by
      rw [hc]; decide
    have hrun : launch_application w p =
        ⟨Outcome.exited (configure_library_path w p).code,
         (configure_library_path w p).env,
         (validate_bundle w p).logs ++ (configure_library_path w p).logs,
         (validate_bundle w p).trace ++ (configure_library_path w p).trace,
         false⟩ := by
      simp [launch_application, hv, hc0]
    refine ⟨by rw [hrun, hc], ?_⟩
    intro q hmem
    rw [hrun] at hmem
    simp only [List.mem_append] at hmem
    rcases hmem with hmem | hmem
    · exact execv_not_in_validate_trace w p q hmem
    · exact execv_not_in_configure_trace w p q hmem

/-- Witness for C6 at wSetenvFail, where the setenv call fails. -/
theorem C6_system_error_condition_witness :
    ("/tmp/app" ++ LIB_PATH).length ≤ MAX_PATH_LENGTH - 1 ∧
      SystemErrorSpec wSetenvFail "/tmp/app" :=
  ⟨by decide, C6_system_error_condition wSetenvFail "/tmp/app" (by decide)⟩

/-- C7: with argc different from two, that is with zero or at least two
positional arguments, the launcher prints usage, exits with
EXIT_INVALID_ARGS, and performs no system call at all, in particular no
filesystem access. -/
theorem C7_bad_argc_usage (w : World) (argv : List String)
    (h : argv.length ≠ 2) :
    (mainRun w argv).outcome = Outcome.exited EXIT_INVALID_ARGS ∧
      (mainRun w argv).usage = true ∧
      (mainRun w argv).trace = [] := by
  match argv with
  | [] => exact ⟨rfl, rfl, rfl⟩
  | [a] => exact ⟨rfl, rfl, rfl⟩
  | [a, b] => exact absurd rfl h
  | a :: b :: c :: t => exact ⟨rfl, rfl, rfl⟩

/-- Witness for C7 with an empty positional argument list. -/
theorem C7_bad_argc_usage_witness :
    (["launcher"] : List String).length ≠ 2 ∧
      ((mainRun wGood ["launcher"]).outcome = Outcome.exited EXIT_INVALID_ARGS ∧
        (mainRun wGood ["launcher"]).usage = true ∧
        (mainRun wGood ["launcher"]).trace = []) :=
  ⟨by decide, C7_bad_argc_usage wGood ["launcher"] (by decide)⟩

/-- C8: whenever the run of launch_application reaches the execv call, the
earlier validation succeeded: in particular the target executable exists as
a regular file or symlink and has execute permission. -/
theorem C8_handoff_implies_validated (w : World) (p q : String)
    (h : SysEvent.execv q ∈ (launch_application w p).trace) :
    (validate_bundle w p).code = EXIT_SUCCESS ∧
      (file_exists w (snprintf_cat MAX_PATH_LENGTH p EXEC_PATH)).fst = true ∧
      w.accessX (snprintf_cat MAX_PATH_LENGTH p EXEC_PATH) = true := by
  by_cases hv : (validate_bundle w p).code = EXIT_SUCCESS
  · have hiff := (validate_bundle_success_iff w p).mp hv
    exact ⟨hv, hiff.2.1, hiff.2.2⟩
  · exfalso
    have hrun : launch_application w p =
        ⟨Outcome.exited (validate_bundle w p).code, w.env,
         (validate_bundle w p).logs, (validate_bundle w p).trace, false⟩ := by
      simp [launch_application, hv]
    rw [hrun] at h
    exact execv_not_in_validate_trace w p q h

/-- Witness for C8 at wGood, where the run reaches execv. -/
theorem C8_handoff_implies_validated_witness :
    SysEvent.execv "/tmp/app/exec/base" ∈
        (launch_application wGood "/tmp/app").trace ∧
      ((validate_bundle wGood "/tmp/app").code = EXIT_SUCCESS ∧
        (file_exists wGood
            (snprintf_cat MAX_PATH_LENGTH "/tmp/app" EXEC_PATH)).fst = true ∧
        wGood.accessX (snprintf_cat MAX_PATH_LENGTH "/tmp/app" EXEC_PATH) = true) :=
  ⟨by decide,
   C8_handoff_implies_validated wGood "/tmp/app" "/tmp/app/exec/base" (by decide)⟩

/-- C9: a single bundle-path argument of length at least MAX_PATH_LENGTH is
rejected with EXIT_INVALID_ARGS before any system call is made. -/
theorem C9_long_path_rejected (w : World) (prog p : String)
    (h : MAX_PATH_LENGTH ≤ p.length) :
    (mainRun w [prog, p]).outcome = Outcome.exited EXIT_INVALID_ARGS ∧
      (mainRun w [prog, p]).trace = [] ∧
      (mainRun w [prog, p]).env = w.env := by
  refine ⟨?_, ?_, ?_⟩ <;> simp [mainRun, h]

/-- A path of exactly MAX_PATH_LENGTH characters. -/
def longPath : String := String.mk (List.replicate MAX_PATH_LENGTH 'a')

/-- Witness for C9 at a 4096-character bundle path. -/
theorem C9_long_path_rejected_witness :
    MAX_PATH_LENGTH ≤ longPath.length ∧
      ((mainRun wGood ["launcher", longPath]).outcome =
          Outcome.exited EXIT_INVALID_ARGS ∧
        (mainRun wGood ["launcher", longPath]).trace = [] ∧
        (mainRun wGood ["launcher", longPath]).env = wGood.env) :=
  ⟨by
    have hl : longPath.length = MAX_PATH_LENGTH := by
      have h1 : longPath.length = (List.replicate MAX_PATH_LENGTH 'a').length := rfl
      rw [h1, List.length_replicate]
    rw [hl],
   C9_long_path_rejected wGood "launcher" longPath
     (by
       have hl : longPath.length = MAX_PATH_LENGTH := by
         have h1 : longPath.length = (List.replicate MAX_PATH_LENGTH 'a').length := rfl
         rw [h1, List.length_replicate]
       rw [hl])⟩

/-- Sanity check of the model on the complete bundle: the run ends with the
process image replaced by the bundle executable, called with its own path as
the only argument. -/
theorem launch_application_sample :
    (launch_application wGood "/tmp/app").outcome =
      Outcome.replaced "/tmp/app/exec/base" ["/tmp/app/exec/base"] ∧
    (launch_application wGood "/tmp/app").env "LD_LIBRARY_PATH" =
      some "/tmp/app/library:/usr/lib" := by decide

end Vlaunch
